import Mathlib

/-!
Verification development for the canva-edu document-generation repository.

The JavaScript data/faker module (src/faker.js) is embedded directly from its
source.  The Python pipeline (image acquirer with LRU cache, verification
hasher, document composer, batch processor) is described by the repository's
README and integration guide but its code (ufixed.py / canva.py / u.py) is not
present in the source tree; those components are modelled from the
specification, as marked on each definition.

JavaScript's Math.random() is modelled by an explicit oracle value r : ℚ with
0 ≤ r < 1; Math.floor is Int.floor.
-/

namespace CanvaEdu

/-- Oracle value standing for one draw of Math.random(): a rational in [0,1). -/
def ValidRand (r : ℚ) : Prop := 0 ≤ r ∧ r < 1

namespace Faker

/-- Options object accepted by faker.datatype.number; either numeric field may
be absent (undefined in JavaScript). -/
structure NumberOptions where
  min : Option Int
  max : Option Int
deriving DecidableEq

/-- JavaScript `v || d` on an optional numeric field: both undefined and 0 are
falsy, so they select the default. -/
def jsNumOr (v : Option Int) (d : Int) : Int :=
  match v with
  | none => d
  | some x => if x = 0 then d else x

/-- faker.datatype.number(options) from src/faker.js lines 128-132:
`Math.floor(Math.random() * (max - min + 1)) + min`, where
`min = options.min || 0` and `max = options.max || 100`. -/
def datatypeNumber (opts : NumberOptions) (r : ℚ) : Int :=
  let lo := jsNumOr opts.min 0
  let hi := jsNumOr opts.max 100
  Int.floor (r * ((hi : ℚ) - (lo : ℚ) + 1)) + lo

/-- Core bound for the floor-of-scaled-random idiom: with an oracle in [0,1)
and lo ≤ hi, the result lands in [lo, hi]. -/
lemma datatypeNumber_bounds (opts : NumberOptions) (r : ℚ) (hr : ValidRand r)
    (h : jsNumOr opts.min 0 ≤ jsNumOr opts.max 100) :
    jsNumOr opts.min 0 ≤ datatypeNumber opts r ∧
      datatypeNumber opts r ≤ jsNumOr opts.max 100 := by
  obtain ⟨hr0, hr1⟩ := hr
  set lo := jsNumOr opts.min 0 with hlo
  set hi := jsNumOr opts.max 100 with hhi
  have hspan : (0 : ℚ) < (hi : ℚ) - (lo : ℚ) + 1 := by
    have : (lo : ℚ) ≤ (hi : ℚ) := by exact_mod_cast h
    linarith
  have hfl0 : 0 ≤ Int.floor (r * ((hi : ℚ) - (lo : ℚ) + 1)) := by
    apply Int.floor_nonneg.mpr
    exact mul_nonneg hr0 (le_of_lt hspan)
  have hflt : Int.floor (r * ((hi : ℚ) - (lo : ℚ) + 1)) < hi - lo + 1 := by
    apply Int.floor_lt.mpr
    have hmul : r * ((hi : ℚ) - (lo : ℚ) + 1) < 1 * ((hi : ℚ) - (lo : ℚ) + 1) :=
      mul_lt_mul_of_pos_right hr1 hspan
    have hcast : ((hi - lo + 1 : Int) : ℚ) = (hi : ℚ) - (lo : ℚ) + 1 := by push_cast; ring
    rw [hcast]
    linarith
  constructor
  · show lo ≤ Int.floor (r * ((hi : ℚ) - (lo : ℚ) + 1)) + lo
    omega
  · show Int.floor (r * ((hi : ℚ) - (lo : ℚ) + 1)) + lo ≤ hi
    omega

/-- Inclusive salary band from the faker.js salaryRanges tables. -/
structure SalaryRange where
  lo : Int
  hi : Int
deriving DecidableEq

/-- India salary bands, src/faker.js lines 161-166. -/
def indiaSalary (lvl : String) : Option SalaryRange :=
  if lvl = "entry" then some ⟨25000, 40000⟩
  else if lvl = "mid" then some ⟨40000, 70000⟩
  else if lvl = "senior" then some ⟨70000, 120000⟩
  else if lvl = "master" then some ⟨120000, 180000⟩
  else none

/-- USA salary bands, src/faker.js lines 167-172. -/
def usaSalary (lvl : String) : Option SalaryRange :=
  if lvl = "entry" then some ⟨3500, 4500⟩
  else if lvl = "mid" then some ⟨4500, 6500⟩
  else if lvl = "senior" then some ⟨6500, 9000⟩
  else if lvl = "master" then some ⟨9000, 12000⟩
  else none

/-- UK salary bands, src/faker.js lines 173-178. -/
def ukSalary (lvl : String) : Option SalaryRange :=
  if lvl = "entry" then some ⟨2200, 3000⟩
  else if lvl = "mid" then some ⟨3000, 4200⟩
  else if lvl = "senior" then some ⟨4200, 6000⟩
  else if lvl = "master" then some ⟨6000, 8500⟩
  else none

/-- Australia salary bands, src/faker.js lines 179-184. -/
def australiaSalary (lvl : String) : Option SalaryRange :=
  if lvl = "entry" then some ⟨4500, 6000⟩
  else if lvl = "mid" then some ⟨6000, 8500⟩
  else if lvl = "senior" then some ⟨8500, 12000⟩
  else if lvl = "master" then some ⟨12000, 16000⟩
  else none

/-- Canada salary bands, src/faker.js lines 185-190. -/
def canadaSalary (lvl : String) : Option SalaryRange :=
  if lvl = "entry" then some ⟨3800, 5000⟩
  else if lvl = "mid" then some ⟨5000, 7000⟩
  else if lvl = "senior" then some ⟨7000, 9500⟩
  else if lvl = "master" then some ⟨9500, 12500⟩
  else none

/-- Singapore salary bands, src/faker.js lines 191-196. -/
def singaporeSalary (lvl : String) : Option SalaryRange :=
  if lvl = "entry" then some ⟨3000, 4200⟩
  else if lvl = "mid" then some ⟨4200, 6000⟩
  else if lvl = "senior" then some ⟨6000, 8500⟩
  else if lvl = "master" then some ⟨8500, 11000⟩
  else none

/-- Philippines salary bands, src/faker.js lines 197-202. -/
def philippinesSalary (lvl : String) : Option SalaryRange :=
  if lvl = "entry" then some ⟨25000, 35000⟩
  else if lvl = "mid" then some ⟨35000, 55000⟩
  else if lvl = "senior" then some ⟨55000, 80000⟩
  else if lvl = "master" then some ⟨80000, 120000⟩
  else none

/-- Country lookup in the salaryRanges object, src/faker.js lines 160-203:
an unknown country key yields undefined. -/
def salaryRangesFor (country : String) : Option (String → Option SalaryRange) :=
  if country = "India" then some indiaSalary
  else if country = "USA" then some usaSalary
  else if country = "UK" then some ukSalary
  else if country = "Australia" then some australiaSalary
  else if country = "Canada" then some canadaSalary
  else if country = "Singapore" then some singaporeSalary
  else if country = "Philippines" then some philippinesSalary
  else none

/-- JavaScript `salaryRanges[country] || salaryRanges['USA']`,
src/faker.js line 205. -/
def tableFor (country : String) : String → Option SalaryRange :=
  match salaryRangesFor country with
  | some t => t
  | none => usaSalary

/-- JavaScript `countryRanges[experienceLevel] || countryRanges['mid']`,
src/faker.js line 206; the second lookup can itself be undefined in general,
hence the Option result. -/
def rangeFor (country lvl : String) : Option SalaryRange :=
  match tableFor country lvl with
  | some rg => some rg
  | none => tableFor country "mid"

/-- faker.generateTeacherSalary(country, experienceLevel), src/faker.js
lines 159-208: select a band by country then experience level, with JS
falsy fallbacks, then draw a number in the band.  An undefined band passed to
faker.datatype.number would trigger its `options = {}` default. -/
def generateTeacherSalary (country lvl : String) (r : ℚ) : Int :=
  match rangeFor country lvl with
  | some rg => datatypeNumber ⟨some rg.lo, some rg.hi⟩ r
  | none => datatypeNumber ⟨none, none⟩ r

/-- Per-country name data of the faker.teacherNames table. -/
structure NameTable where
  firstNames : List String
  lastNames : List String
  titles : List String
deriving DecidableEq

/-- India entry of faker.teacherNames, src/faker.js lines 7-13. -/
def indiaNames : NameTable :=
  { firstNames := ["Priya", "Rajesh", "Sunita", "Amit", "Kavita", "Vikram",
      "Meera", "Ravi", "Anjali", "Suresh", "Deepika", "Arjun", "Pooja",
      "Kiran", "Sneha", "Ashish", "Divya", "Rohit", "Maya", "Anil"]
    lastNames := ["Sharma", "Patel", "Singh", "Kumar", "Gupta", "Agarwal",
      "Verma", "Mishra", "Joshi", "Shah", "Reddy", "Nair", "Iyer", "Rao",
      "Chopra", "Malhotra", "Kapoor", "Bansal", "Saxena", "Tiwari"]
    titles := ["Dr.", "Prof.", "Ms.", "Mr.", "Mrs."] }

/-- USA entry of faker.teacherNames, src/faker.js lines 14-20. -/
def usaNames : NameTable :=
  { firstNames := ["Sarah", "Michael", "Emily", "David", "Jessica", "Robert",
      "Ashley", "Christopher", "Amanda", "Matthew", "Jennifer", "Joshua",
      "Elizabeth", "Andrew", "Heather", "Daniel", "Michelle", "Ryan",
      "Melissa", "James"]
    lastNames := ["Johnson", "Williams", "Brown", "Jones", "Garcia", "Miller",
      "Davis", "Rodriguez", "Martinez", "Hernandez", "Wilson", "Anderson",
      "Thomas", "Taylor", "Moore", "Jackson", "Martin", "Lee", "Thompson",
      "White"]
    titles := ["Ms.", "Mr.", "Mrs.", "Dr.", "Prof."] }

/-- UK entry of faker.teacherNames, src/faker.js lines 21-27. -/
def ukNames : NameTable :=
  { firstNames := ["Emma", "Oliver", "Amelia", "George", "Ava", "Harry",
      "Isla", "Jack", "Mia", "Charlie", "Sophie", "Jacob", "Grace", "Thomas",
      "Lily", "Oscar", "Freya", "William", "Poppy", "James"]
    lastNames := ["Smith", "Jones", "Taylor", "Williams", "Brown", "Davies",
      "Evans", "Wilson", "Thomas", "Roberts", "Johnson", "Lewis", "Walker",
      "Robinson", "Wood", "Thompson", "White", "Watson", "Jackson", "Wright"]
    titles := ["Ms.", "Mr.", "Mrs.", "Dr.", "Prof."] }

/-- Australia entry of faker.teacherNames, src/faker.js lines 28-34. -/
def australiaNames : NameTable :=
  { firstNames := ["Charlotte", "Oliver", "Amelia", "William", "Ava", "Jack",
      "Isla", "Noah", "Mia", "Thomas", "Grace", "James", "Zoe", "Lucas",
      "Lily", "Henry", "Sophie", "Alexander", "Chloe", "Mason"]
    lastNames := ["Smith", "Jones", "Williams", "Brown", "Wilson", "Taylor",
      "Johnson", "White", "Martin", "Anderson", "Thompson", "Nguyen",
      "Thomas", "Walker", "Harris", "Lee", "Ryan", "Robinson", "Kelly",
      "King"]
    titles := ["Ms.", "Mr.", "Mrs.", "Dr.", "Prof."] }

/-- Country lookup in the faker.teacherNames object, src/faker.js lines 6-35:
an unknown country key yields undefined. -/
def teacherNamesTable (country : String) : Option NameTable :=
  if country = "India" then some indiaNames
  else if country = "USA" then some usaNames
  else if country = "UK" then some ukNames
  else if country = "Australia" then some australiaNames
  else none

/-- JavaScript `faker.teacherNames[country] || faker.teacherNames['USA']`,
src/faker.js line 119. -/
def nameTableFor (country : String) : NameTable :=
  match teacherNamesTable country with
  | some t => t
  | none => usaNames

/-- faker.random.arrayElement(array), src/faker.js lines 136-138:
`array[Math.floor(Math.random() * array.length)]`; indexing out of a
JavaScript array yields undefined, modelled as none. -/
def arrayElement (l : List String) (r : ℚ) : Option String :=
  l.get? (Int.floor (r * (l.length : ℚ))).toNat

/-- JavaScript string interpolation of a possibly-undefined value. -/
def jsStr (o : Option String) : String := o.getD "undefined"

/-- faker.name.teacherName(country), src/faker.js lines 118-124: pick a
title, first name and last name from the country's table (falling back to the
USA table) and interpolate them. -/
def teacherName (country : String) (r1 r2 r3 : ℚ) : String :=
  let d := nameTableFor country
  jsStr (arrayElement d.titles r1) ++ " " ++
    jsStr (arrayElement d.firstNames r2) ++ " " ++
    jsStr (arrayElement d.lastNames r3)

/-- The country prefix map of faker.generateTeacherID, src/faker.js
lines 144-153, with the `|| 'EDU-US'` fallback of line 153. -/
def countryTag (country : String) : String :=
  if country = "India" then "EDU-IN"
  else if country = "USA" then "TEACH-US"
  else if country = "UK" then "EDU-UK"
  else if country = "Australia" then "EDU-AU"
  else if country = "Canada" then "EDU-CA"
  else if country = "Singapore" then "EDU-SG"
  else if country = "Philippines" then "EDU-PH"
  else "EDU-US"

/-- faker.generateTeacherID(country), src/faker.js lines 142-156.  The year
comes from `new Date().getFullYear()`; the wall clock is passed explicitly as
clockYear, and the Math.random() draw as r. -/
def generateTeacherID (country : String) (clockYear : Nat) (r : ℚ) : String :=
  let id := datatypeNumber ⟨some 1000, some 9999⟩ r
  countryTag country ++ "-" ++ toString clockYear ++ "-" ++ toString id

end Faker

/-- The seven country keys of the faker.js salaryRanges table. -/
def supportedSalaryCountries : List String :=
  ["India", "USA", "UK", "Australia", "Canada", "Singapore", "Philippines"]

/-- The four experience-level keys of each country's band table. -/
def salaryLevels : List String := ["entry", "mid", "senior", "master"]

/-- The four country keys of the faker.js teacherNames table. -/
def supportedNameCountries : List String := ["India", "USA", "UK", "Australia"]

/-- Modelled from the spec: ambient state for the pipeline (ufixed.py /
canva.py / u.py are not under src/).  Wall clock, random stream and the three
fallible image sources; the synthetic placeholder source is not here because
it is defined to be local and deterministic (spec 4.2). -/
structure SysEnv where
  clockYear : Nat
  randOracle : Nat → ℚ
  primarySource : String → Option (List Nat)
  secondarySource : String → Option (List Nat)
  localSource : String → Option (List Nat)

/-- Modelled from the spec: the closed set of image Source variants tried in
fixed priority order (spec 4.2 and design note on the ordered fallback
chain); the source code ufixed.py is not under src/. -/
inductive Source
  | primary
  | secondary
  | localAsset
  | synthetic
deriving DecidableEq

/-- Modelled from the spec: the fixed priority order of sources (spec 4.2). -/
def sourceOrder : List Source := [.primary, .secondary, .localAsset, .synthetic]

/-- Modelled from the spec: the synthetic placeholder generator draws a
deterministic local pattern and always succeeds (spec 4.2). -/
def syntheticBytes (key : String) : List Nat :=
  (List.range 16).map (fun i => (key.length * 31 + i * 7) % 256)

/-- Modelled from the spec: one source attempt, returning bytes or the
SourceUnavailable signal as none (spec 4.2, design note tryFetch). -/
def tryFetch (env : SysEnv) (s : Source) (key : String) : Option (List Nat) :=
  match s with
  | .primary => env.primarySource key
  | .secondary => env.secondarySource key
  | .localAsset => env.localSource key
  | .synthetic => some (syntheticBytes key)

/-- Modelled from the spec: try the sources strictly in order and return the
first success (spec 4.2); ufixed.py is not under src/. -/
def tryChain (env : SysEnv) (key : String) : List Source → Option (List Nat)
  | [] => none
  | s :: rest =>
    match tryFetch env s key with
    | some b => some b
    | none => tryChain env key rest

/-- Modelled from the spec: bounded key-to-bytes store; entries keep most
recently used first, so the least recently used entry sits at the end
(spec 4.2a, data model CacheEntry). -/
structure Cache where
  entries : List (String × List Nat)
  capacity : Nat

/-- Size in bytes of one cache entry. -/
def entrySize (e : String × List Nat) : Nat := e.2.length

/-- Cumulative size in bytes of a list of cache entries. -/
def totalSize (es : List (String × List Nat)) : Nat := (es.map entrySize).sum

/-- Modelled from the spec: evict least-recently-used entries until the new
entry fits (spec 4.2a).  The list passed here is reversed, head = LRU. -/
def evictLRU (need cap : Nat) : List (String × List Nat) → List (String × List Nat)
  | [] => []
  | e :: rest =>
    if totalSize (e :: rest) + need ≤ cap then e :: rest
    else evictLRU need cap rest

/-- Modelled from the spec: insertion evicts LRU entries until the new entry
fits (spec 4.2a); an entry that can never fit is not cached at all. -/
def insertEntry (c : Cache) (key : String) (b : List Nat) : Cache :=
  if b.length ≤ c.capacity then
    { c with entries := (key, b) :: (evictLRU b.length c.capacity c.entries.reverse).reverse }
  else c

/-- Remove the first entry with the given key, returning its bytes (if any)
and the remaining entries in order. -/
def extractKey (key : String) : List (String × List Nat) →
    Option (List Nat) × List (String × List Nat)
  | [] => (none, [])
  | e :: rest =>
    if e.1 = key then (some e.2, rest)
    else
      let p := extractKey key rest
      (p.1, e :: p.2)

/-- Modelled from the spec: a cache hit returns immediately and updates
recency by moving the entry to the front (spec 4.2). -/
def cacheLookup (c : Cache) (key : String) : Option (List Nat) × Cache :=
  match extractKey key c.entries with
  | (some b, rest) => (some b, { c with entries := (key, b) :: rest })
  | (none, _) => (none, c)

/-- Modelled from the spec: acquire checks the cache, then walks the source
chain in priority order, caching and returning the first success
(spec 4.2 and 4.2a); ufixed.py is not under src/. -/
def acquire (env : SysEnv) (c : Cache) (key : String) :
    Option (List Nat) × Cache :=
  match cacheLookup c key with
  | (some b, c2) => (some b, c2)
  | (none, _) =>
    match tryChain env key sourceOrder with
    | some b => (some b, insertEntry c key b)
    | none => (none, c)

/-- Sequence of acquire calls threading the cache, for stating the cache
invariant over any call sequence. -/
def runAcquires (env : SysEnv) (c : Cache) : List String → Cache
  | [] => c
  | k :: ks => runAcquires env (acquire env c k).2 ks

/-- Modelled from the spec: the stable record fields the Verification Hasher
reads (spec 4.1: id, name, institution code, validity date). -/
structure HashRecord where
  id : String
  name : String
  institution : String
  validUntil : String
deriving DecidableEq

/-- Non-cryptographic content digest of a string (spec design note 9: the
hash is a deterministic content digest, algorithm unspecified). -/
def digestChars (s : String) : Nat :=
  s.data.foldl (fun h c => (h * 131 + c.toNat) % 1000000007) 7

/-- Modelled from the spec: the Verification Hasher is a pure function of the
record's stable fields and must not read the wall clock or random state
(spec 4.1), so the ambient SysEnv argument is ignored. -/
def verificationHash (_env : SysEnv) (hr : HashRecord) : String :=
  toString (digestChars (hr.id ++ "|" ++ hr.name ++ "|" ++ hr.institution ++
    "|" ++ hr.validUntil))

/-- Modelled from the spec: QR-encodable verification payload derived from a
record (spec 4.1: digest plus structured verification string). -/
structure SecurityPayload where
  digest : String
  verifyString : String
deriving DecidableEq

/-- Modelled from the spec: compute the SecurityPayload for a record
(spec 4.1). -/
def securityPayloadOf (env : SysEnv) (hr : HashRecord) : SecurityPayload :=
  { digest := verificationHash env hr
    verifyString := hr.id ++ "|" ++ hr.name ++ "|" ++ hr.institution ++ "|" ++
      hr.validUntil ++ "|" ++ verificationHash env hr }

/-- Names of record fields a template may require (spec 6). -/
inductive FieldName
  | record_id
  | name
  | country
  | basic_salary
  | pay_period
  | program
  | academic_year
deriving DecidableEq

/-- Modelled from the spec: a Record is a mapping of named fields, any of
which may be absent (spec 3 and 6); canva.py / u.py are not under src/. -/
structure Record where
  record_id : Option String
  name : Option String
  country : Option String
  basic_salary : Option Int
  pay_period : Option String
  program : Option String
  academic_year : Option String
deriving DecidableEq

/-- Field presence test on a record. -/
def hasField (r : Record) : FieldName → Bool
  | .record_id => r.record_id.isSome
  | .name => r.name.isSome
  | .country => r.country.isSome
  | .basic_salary => r.basic_salary.isSome
  | .pay_period => r.pay_period.isSome
  | .program => r.program.isSome
  | .academic_year => r.academic_year.isSome

/-- The enumerated document template kinds (spec 4.3 and glossary). -/
inductive TemplateKind
  | id_card
  | salary_slip
  | receipt
  | transcript
  | enrollment_certificate
deriving DecidableEq

/-- Modelled from the spec: fields every template requires (spec 6). -/
def baseRequired : List FieldName := [.record_id, .name, .country]

/-- Modelled from the spec: fields required by each template kind (spec 6:
salary_slip also needs basic_salary and pay_period, transcript also needs
program and academic_year). -/
def requiredFields : TemplateKind → List FieldName
  | .salary_slip => baseRequired ++ [.basic_salary, .pay_period]
  | .transcript => baseRequired ++ [.program, .academic_year]
  | _ => baseRequired

/-- Printable name of a field, used in validation error details. -/
def fieldLabel : FieldName → String
  | .record_id => "record_id"
  | .name => "name"
  | .country => "country"
  | .basic_salary => "basic_salary"
  | .pay_period => "pay_period"
  | .program => "program"
  | .academic_year => "academic_year"

/-- Required fields of the kind that the record does not carry. -/
def missingFields (r : Record) (k : TemplateKind) : List FieldName :=
  (requiredFields k).filter (fun f => ! hasField r f)

/-- Path segment naming each template kind (spec 6: output artifact paths). -/
def kindLabel : TemplateKind → String
  | .id_card => "id_card"
  | .salary_slip => "salary_slip"
  | .receipt => "receipt"
  | .transcript => "transcript"
  | .enrollment_certificate => "enrollment_certificate"

/-- Modelled from the spec: file extension per kind — png for the card-like
document, pdf for the document-like ones (spec 6). -/
def extOf : TemplateKind → String
  | .id_card => "png"
  | _ => "pdf"

/-- Modelled from the spec: the optional period component of the artifact
path; only the salary slip carries a pay period (spec 6 and the salary-slip
scenario of spec 8). -/
def periodOf (r : Record) : TemplateKind → Option String
  | .salary_slip => r.pay_period
  | _ => none

/-- Modelled from the spec: deterministic artifact path
kind_recordid[_period].ext (spec 6). -/
def artifactPath (k : TemplateKind) (rid : String) (period : Option String) :
    String :=
  kindLabel k ++ "_" ++ rid ++
    (match period with
      | some p => "_" ++ p
      | none => "") ++ "." ++ extOf k

/-- Modelled from the spec: validation failure detail listing the missing
fields by name (spec 4.3 step a). -/
def validationMessage (fs : List FieldName) : String :=
  "ValidationError: missing required fields: " ++
    String.intercalate ", " (fs.map fieldLabel)

/-- Modelled from the spec: per-unit outcome record (spec 3 DocumentResult
and spec 6 BatchReport results entries). -/
structure DocumentResult where
  record_id : String
  kind : TemplateKind
  path : Option String
  verification_hash : Option String
  success : Bool
  error : Option String
deriving DecidableEq

/-- Modelled from the spec: the stable fields handed to the hasher, filled
from the record (spec 4.1; the record model of spec 6 carries no separate
institution or validity field, so the stable country and academic-year
fields stand in for them). -/
def hashRecordOf (r : Record) : HashRecord :=
  { id := r.record_id.getD ""
    name := r.name.getD ""
    institution := r.country.getD ""
    validUntil := r.academic_year.getD "" }

/-- Image request key for a record's subject photo (spec 3 ImageRequest:
subject identifier plus desired kind). -/
def imageKeyOf (r : Record) : String := r.record_id.getD "" ++ ":photo"

/-- Modelled from the spec: the DocumentResult produced by compose for one
record and kind — validation first, then hash and deterministic path
(spec 4.3); rendering onto the opaque Canvas capability is out of scope and
cannot fail in the model. -/
def composeValue (r : Record) (k : TemplateKind) : DocumentResult :=
  if missingFields r k = [] then
    { record_id := r.record_id.getD ""
      kind := k
      path := some (artifactPath k (r.record_id.getD "") (periodOf r k))
      verification_hash := some (verificationHash
        ⟨0, fun _ => 0, fun _ => none, fun _ => none, fun _ => none⟩
        (hashRecordOf r))
      success := true
      error := none }
  else
    { record_id := r.record_id.getD ""
      kind := k
      path := none
      verification_hash := none
      success := false
      error := some (validationMessage (missingFields r k)) }

/-- Modelled from the spec: compose(record, template_kind) validates, hashes,
acquires imagery through the shared cache and persists under the
deterministic path (spec 4.3); canva.py / u.py are not under src/. -/
def compose (env : SysEnv) (c : Cache) (r : Record) (k : TemplateKind) :
    DocumentResult × Cache :=
  if missingFields r k = [] then
    (composeValue r k, (acquire env c (imageKeyOf r)).2)
  else
    (composeValue r k, c)

/-- Modelled from the spec: the batch dispatches one unit of work per
(record, template_kind) pair (spec 4.4). -/
def unitList (records : List Record) (kinds : List TemplateKind) :
    List (Record × TemplateKind) :=
  records.flatMap (fun r => kinds.map (fun k => (r, k)))

/-- Modelled from the spec: execute the units in submission order, threading
the shared cache; each unit's outcome is captured, never raised (spec 4.4a). -/
def runUnits (env : SysEnv) : Cache → List (Record × TemplateKind) →
    List DocumentResult × Cache
  | c, [] => ([], c)
  | c, u :: rest =>
    let step := compose env c u.1 u.2
    let restRun := runUnits env step.2 rest
    (step.1 :: restRun.1, restRun.2)

/-- Modelled from the spec: the aggregated batch outcome (spec 6
BatchReport). -/
structure BatchReport where
  success : Bool
  results : List DocumentResult
  processed_count : Nat
  failed_count : Nat
deriving DecidableEq

/-- Modelled from the spec: run(records, template_kinds) — every pair is one
unit, results listed in submission order, counts split by success
(spec 4.4 and 6); the worker pool and timeouts are concurrency aspects not
representable in this sequential model. -/
def run (env : SysEnv) (c : Cache) (records : List Record)
    (kinds : List TemplateKind) : BatchReport × Cache :=
  let out := runUnits env c (unitList records kinds)
  ({ success := out.1.all (fun dr => dr.success)
     results := out.1
     processed_count := (out.1.filter (fun dr => dr.success)).length
     failed_count := (out.1.filter (fun dr => ! dr.success)).length }, out.2)

/-- The salary-slip scenario record of spec 8. -/
def scenarioRecord : Record :=
  { record_id := some "T-1"
    name := some "Dr. Priya Sharma"
    country := some "India"
    basic_salary := some 75000
    pay_period := some "2024-03"
    program := none
    academic_year := none }

lemma salaryRangesFor_eq_none (c : String) (h : c ∉ supportedSalaryCountries) :
    Faker.salaryRangesFor c = none := by
  simp only [supportedSalaryCountries, List.mem_cons, List.not_mem_nil, or_false,
    not_or] at h
  obtain ⟨h1, h2, h3, h4, h5, h6, h7⟩ := h
  simp [Faker.salaryRangesFor, h1, h2, h3, h4, h5, h6, h7]

lemma usaSalary_eq_none (lvl : String) (h : lvl ∉ salaryLevels) :
    Faker.usaSalary lvl = none := by
  simp only [salaryLevels, List.mem_cons, List.not_mem_nil, or_false, not_or] at h
  obtain ⟨h1, h2, h3, h4⟩ := h
  simp [Faker.usaSalary, h1, h2, h3, h4]

lemma jsNumOr_some (x d : Int) (h : x ≠ 0) : Faker.jsNumOr (some x) d = x := by
  show (if x = 0 then d else x) = x
  rw [if_neg h]

lemma indiaSalary_good (lvl : String) (rg : Faker.SalaryRange)
    (h : Faker.indiaSalary lvl = some rg) : 0 < rg.lo ∧ rg.lo ≤ rg.hi := by
  unfold Faker.indiaSalary at h
  repeat' split at h
  all_goals first
    | (injection h with h2; subst h2; decide)
    | exact Option.noConfusion h

lemma usaSalary_good (lvl : String) (rg : Faker.SalaryRange)
    (h : Faker.usaSalary lvl = some rg) : 0 < rg.lo ∧ rg.lo ≤ rg.hi := by
  unfold Faker.usaSalary at h
  repeat' split at h
  all_goals first
    | (injection h with h2; subst h2; decide)
    | exact Option.noConfusion h

lemma ukSalary_good (lvl : String) (rg : Faker.SalaryRange)
    (h : Faker.ukSalary lvl = some rg) : 0 < rg.lo ∧ rg.lo ≤ rg.hi := by
  unfold Faker.ukSalary at h
  repeat' split at h
  all_goals first
    | (injection h with h2; subst h2; decide)
    | exact Option.noConfusion h

lemma australiaSalary_good (lvl : String) (rg : Faker.SalaryRange)
    (h : Faker.australiaSalary lvl = some rg) : 0 < rg.lo ∧ rg.lo ≤ rg.hi := by
  unfold Faker.australiaSalary at h
  repeat' split at h
  all_goals first
    | (injection h with h2; subst h2; decide)
    | exact Option.noConfusion h

lemma canadaSalary_good (lvl : String) (rg : Faker.SalaryRange)
    (h : Faker.canadaSalary lvl = some rg) : 0 < rg.lo ∧ rg.lo ≤ rg.hi := by
  unfold Faker.canadaSalary at h
  repeat' split at h
  all_goals first
    | (injection h with h2; subst h2; decide)
    | exact Option.noConfusion h

lemma singaporeSalary_good (lvl : String) (rg : Faker.SalaryRange)
    (h : Faker.singaporeSalary lvl = some rg) : 0 < rg.lo ∧ rg.lo ≤ rg.hi := by
  unfold Faker.singaporeSalary at h
  repeat' split at h
  all_goals first
    | (injection h with h2; subst h2; decide)
    | exact Option.noConfusion h

lemma philippinesSalary_good (lvl : String) (rg : Faker.SalaryRange)
    (h : Faker.philippinesSalary lvl = some rg) : 0 < rg.lo ∧ rg.lo ≤ rg.hi := by
  unfold Faker.philippinesSalary at h
  repeat' split at h
  all_goals first
    | (injection h with h2; subst h2; decide)
    | exact Option.noConfusion h

lemma tableFor_good (c : String) :
    (∀ lvl rg, Faker.tableFor c lvl = some rg → 0 < rg.lo ∧ rg.lo ≤ rg.hi) ∧
      (Faker.tableFor c "mid").isSome := by
  unfold Faker.tableFor Faker.salaryRangesFor
  repeat' split
  exacts [⟨indiaSalary_good, by decide⟩, ⟨usaSalary_good, by decide⟩,
    ⟨ukSalary_good, by decide⟩, ⟨australiaSalary_good, by decide⟩,
    ⟨canadaSalary_good, by decide⟩, ⟨singaporeSalary_good, by decide⟩,
    ⟨philippinesSalary_good, by decide⟩, ⟨usaSalary_good, by decide⟩]

lemma rangeFor_good (c lvl : String) :
    ∃ rg, Faker.rangeFor c lvl = some rg ∧ 0 < rg.lo ∧ rg.lo ≤ rg.hi := by
  obtain ⟨hgood, hmid⟩ := tableFor_good c
  unfold Faker.rangeFor
  cases h : Faker.tableFor c lvl with
  | some rg => exact ⟨rg, rfl, hgood lvl rg h⟩
  | none =>
    obtain ⟨rg, hrg⟩ := Option.isSome_iff_exists.mp hmid
    exact ⟨rg, hrg, hgood "mid" rg hrg⟩

lemma genSalary_bounds (c lvl : String) (r : ℚ) (hr : ValidRand r)
    (rg : Faker.SalaryRange) (hrg : Faker.rangeFor c lvl = some rg)
    (h0 : 0 < rg.lo) (hle : rg.lo ≤ rg.hi) :
    rg.lo ≤ Faker.generateTeacherSalary c lvl r ∧
      Faker.generateTeacherSalary c lvl r ≤ rg.hi := by
  unfold Faker.generateTeacherSalary
  rw [hrg]
  have h1 : Faker.jsNumOr (some rg.lo) 0 = rg.lo := jsNumOr_some rg.lo 0 (by omega)
  have h2 : Faker.jsNumOr (some rg.hi) 100 = rg.hi := jsNumOr_some rg.hi 100 (by omega)
  have hb := Faker.datatypeNumber_bounds ⟨some rg.lo, some rg.hi⟩ r hr
    (by rw [show (⟨some rg.lo, some rg.hi⟩ : Faker.NumberOptions).min = some rg.lo from rfl,
      show (⟨some rg.lo, some rg.hi⟩ : Faker.NumberOptions).max = some rg.hi from rfl,
      h1, h2]; exact hle)
  rw [show (⟨some rg.lo, some rg.hi⟩ : Faker.NumberOptions).min = some rg.lo from rfl,
    show (⟨some rg.lo, some rg.hi⟩ : Faker.NumberOptions).max = some rg.hi from rfl,
    h1, h2] at hb
  exact hb

/-- C8: faker.datatype.number(options) with a random draw in [0,1): when both
min and max are given, nonzero and ordered, the result lies in [min, max]; an
omitted or zero max resolves to the bound 100, and an omitted or zero min
resolves to the bound 0 (JavaScript || truthiness). -/
theorem faker_datatype_number_spec (opts : Faker.NumberOptions) (r : ℚ)
    (hr : ValidRand r) :
    (∀ lo hi, opts.min = some lo → opts.max = some hi → lo ≠ 0 → hi ≠ 0 → lo ≤ hi →
      lo ≤ Faker.datatypeNumber opts r ∧ Faker.datatypeNumber opts r ≤ hi) ∧
    ((opts.max = none ∨ opts.max = some 0) → Faker.jsNumOr opts.max 100 = 100) ∧
    ((opts.min = none ∨ opts.min = some 0) → Faker.jsNumOr opts.min 0 = 0) := by
  refine ⟨?_, ?_, ?_⟩
  · intro lo hi hmin hmax hlo hhi hle
    have h1 : Faker.jsNumOr opts.min 0 = lo := by
      rw [hmin]; exact jsNumOr_some lo 0 hlo
    have h2 : Faker.jsNumOr opts.max 100 = hi := by
      rw [hmax]; exact jsNumOr_some hi 100 hhi
    have hb := Faker.datatypeNumber_bounds opts r hr (by rw [h1, h2]; exact hle)
    rw [h1, h2] at hb
    exact hb
  · rintro (h | h) <;> simp [Faker.jsNumOr, h]
  · rintro (h | h) <;> simp [Faker.jsNumOr, h]

/-- Witness for C8 at options {min: 2, max: 5} and oracle 1/2. -/
theorem faker_datatype_number_spec_witness :
    ValidRand (1 / 2 : ℚ) ∧
      (2 ≤ Faker.datatypeNumber ⟨some 2, some 5⟩ (1 / 2) ∧
        Faker.datatypeNumber ⟨some 2, some 5⟩ (1 / 2) ≤ 5) :=
  ⟨⟨by norm_num, by norm_num⟩,
    (faker_datatype_number_spec ⟨some 2, some 5⟩ (1 / 2) ⟨by norm_num, by norm_num⟩).1
      2 5 rfl rfl (by decide) (by decide) (by decide)⟩

/-- C9: faker.generateTeacherSalary(country, experienceLevel) is total and
returns an integer inside the band selected by the country lookup (JavaScript
|| fallback to the USA table) followed by the level lookup (|| fallback to the
country's mid band); in particular an unknown country with an unknown level
lands in the USA mid band [4500, 6500]. -/
theorem faker_generateTeacherSalary_spec (country lvl : String) (r : ℚ)
    (hr : ValidRand r) :
    (∃ rg, Faker.rangeFor country lvl = some rg ∧
      rg.lo ≤ Faker.generateTeacherSalary country lvl r ∧
      Faker.generateTeacherSalary country lvl r ≤ rg.hi) ∧
    (country ∉ supportedSalaryCountries → Faker.tableFor country = Faker.usaSalary) ∧
    (Faker.tableFor country lvl = none →
      Faker.rangeFor country lvl = Faker.tableFor country "mid") ∧
    (country ∉ supportedSalaryCountries → lvl ∉ salaryLevels →
      4500 ≤ Faker.generateTeacherSalary country lvl r ∧
      Faker.generateTeacherSalary country lvl r ≤ 6500) := by
  have hfall : country ∉ supportedSalaryCountries →
      Faker.tableFor country = Faker.usaSalary := by
    intro hc
    unfold Faker.tableFor
    rw [salaryRangesFor_eq_none country hc]
  refine ⟨?_, hfall, ?_, ?_⟩
  · obtain ⟨rg, hrg, h0, hle⟩ := rangeFor_good country lvl
    exact ⟨rg, hrg, genSalary_bounds country lvl r hr rg hrg h0 hle⟩
  · intro h
    unfold Faker.rangeFor
    rw [h]
  · intro hc hl
    have ht := hfall hc
    have hrg : Faker.rangeFor country lvl = some ⟨4500, 6500⟩ := by
      unfold Faker.rangeFor
      rw [ht, usaSalary_eq_none lvl hl]
      decide
    exact genSalary_bounds country lvl r hr ⟨4500, 6500⟩ hrg (by decide) (by decide)

/-- Witness for C9 at the unknown country "Wakanda", unknown level "guru",
oracle 0. -/
theorem faker_generateTeacherSalary_spec_witness :
    ValidRand (0 : ℚ) ∧
      (4500 ≤ Faker.generateTeacherSalary "Wakanda" "guru" 0 ∧
        Faker.generateTeacherSalary "Wakanda" "guru" 0 ≤ 6500) :=
  ⟨⟨le_refl 0, by norm_num⟩,
    (faker_generateTeacherSalary_spec "Wakanda" "guru" 0
      ⟨le_refl 0, by norm_num⟩).2.2.2 (by decide) (by decide)⟩

/-- C10: faker.generateTeacherID(country) builds <tag>-<year>-<id> where the
tag is the mapped value for the seven listed countries and EDU-US otherwise,
the year comes from the wall clock, and the id draw lies in [1000, 9999]; the
output depends on the clock year and on the random draw, so it is not a pure
function of the country argument. -/
theorem faker_generateTeacherID_spec (country : String) (clockYear : Nat)
    (r : ℚ) (hr : ValidRand r) :
    (∃ id : Int, 1000 ≤ id ∧ id ≤ 9999 ∧
      Faker.generateTeacherID country clockYear r =
        Faker.countryTag country ++ "-" ++ toString clockYear ++ "-" ++ toString id) ∧
    (Faker.countryTag country ∈
        ["EDU-IN", "TEACH-US", "EDU-UK", "EDU-AU", "EDU-CA", "EDU-SG", "EDU-PH"] ∨
      Faker.countryTag country = "EDU-US") ∧
    Faker.generateTeacherID "India" 2024 0 ≠ Faker.generateTeacherID "India" 2025 0 ∧
    Faker.generateTeacherID "India" 2024 0 ≠
      Faker.generateTeacherID "India" 2024 (1 / 2) := by
  have hid0 : Faker.datatypeNumber ⟨some 1000, some 9999⟩ (0 : ℚ) = 1000 := by
    show Int.floor ((0 : ℚ) *
        (((Faker.jsNumOr (some 9999) 100 : ℤ) : ℚ) -
          ((Faker.jsNumOr (some 1000) 0 : ℤ) : ℚ) + 1)) +
      Faker.jsNumOr (some 1000) 0 = 1000
    rw [jsNumOr_some 1000 0 (by decide), jsNumOr_some 9999 100 (by decide)]
    norm_num
  have hid5 : Faker.datatypeNumber ⟨some 1000, some 9999⟩ (1 / 2 : ℚ) = 5500 := by
    show Int.floor ((1 / 2 : ℚ) *
        (((Faker.jsNumOr (some 9999) 100 : ℤ) : ℚ) -
          ((Faker.jsNumOr (some 1000) 0 : ℤ) : ℚ) + 1)) +
      Faker.jsNumOr (some 1000) 0 = 5500
    rw [jsNumOr_some 1000 0 (by decide), jsNumOr_some 9999 100 (by decide)]
    norm_num
  have hs0 : Faker.generateTeacherID "India" 2024 (0 : ℚ) = "EDU-IN-2024-1000" := by
    have h : Faker.generateTeacherID "India" 2024 (0 : ℚ) =
        Faker.countryTag "India" ++ "-" ++ toString (2024 : Nat) ++ "-" ++
          toString (Faker.datatypeNumber ⟨some 1000, some 9999⟩ (0 : ℚ)) := rfl
    rw [h, hid0]
    decide
  have hs5 : Faker.generateTeacherID "India" 2024 (1 / 2 : ℚ) =
      "EDU-IN-2024-5500" := by
    have h : Faker.generateTeacherID "India" 2024 (1 / 2 : ℚ) =
        Faker.countryTag "India" ++ "-" ++ toString (2024 : Nat) ++ "-" ++
          toString (Faker.datatypeNumber ⟨some 1000, some 9999⟩ (1 / 2 : ℚ)) := rfl
    rw [h, hid5]
    decide
  refine ⟨?_, ?_, by decide, by rw [hs0, hs5]; decide⟩
  · refine ⟨Faker.datatypeNumber ⟨some 1000, some 9999⟩ r, ?_, ?_, rfl⟩
    · have hb := Faker.datatypeNumber_bounds ⟨some 1000, some 9999⟩ r hr (by decide)
      exact le_trans (by decide) hb.1
    · have hb := Faker.datatypeNumber_bounds ⟨some 1000, some 9999⟩ r hr (by decide)
      exact le_trans hb.2 (by decide)
  · unfold Faker.countryTag
    repeat' split
    all_goals simp

/-- Witness for C10 at the unmapped country "Brazil", year 2024, oracle 0. -/
theorem faker_generateTeacherID_spec_witness :
    ValidRand (0 : ℚ) ∧
      (∃ id : Int, 1000 ≤ id ∧ id ≤ 9999 ∧
        Faker.generateTeacherID "Brazil" 2024 0 =
          Faker.countryTag "Brazil" ++ "-" ++ toString (2024 : Nat) ++ "-" ++
            toString id) :=
  ⟨⟨le_refl 0, by norm_num⟩,
    (faker_generateTeacherID_spec "Brazil" 2024 0 ⟨le_refl 0, by norm_num⟩).1⟩

lemma tryChain_sourceOrder_some (env : SysEnv) (key : String) :
    ∃ b, tryChain env key sourceOrder = some b := by
  cases hp : env.primarySource key with
  | some b => exact ⟨b, by simp [sourceOrder, tryChain, tryFetch, hp]⟩
  | none =>
    cases hs : env.secondarySource key with
    | some b => exact ⟨b, by simp [sourceOrder, tryChain, tryFetch, hp, hs]⟩
    | none =>
      cases hl : env.localSource key with
      | some b => exact ⟨b, by simp [sourceOrder, tryChain, tryFetch, hp, hs, hl]⟩
      | none =>
        exact ⟨syntheticBytes key,
          by simp [sourceOrder, tryChain, tryFetch, hp, hs, hl]⟩

lemma totalSize_reverse (es : List (String × List Nat)) :
    totalSize es.reverse = totalSize es := by
  simp [totalSize, List.sum_reverse]

lemma evictLRU_fits (need cap : Nat) (h : need ≤ cap) :
    ∀ es, totalSize (evictLRU need cap es) + need ≤ cap := by
  intro es
  induction es with
  | nil => simpa [evictLRU, totalSize]
  | cons e rest ih =>
    unfold evictLRU
    split
    · assumption
    · exact ih

lemma extractKey_some_size (key : String) :
    ∀ es b rest, extractKey key es = (some b, rest) →
      b.length + totalSize rest = totalSize es := by
  intro es
  induction es with
  | nil => intro b rest h; exact absurd h (by simp [extractKey])
  | cons e t ih =>
    intro b rest h
    unfold extractKey at h
    split at h
    · injection h with h1 h2
      injection h1 with h1
      subst h1
      subst h2
      simp [totalSize, entrySize]
    · have h9 : ((extractKey key t).1, e :: (extractKey key t).2) = (some b, rest) := h
      injection h9 with h1 h2
      subst h2
      have hext : extractKey key t = (some b, (extractKey key t).2) := by rw [← h1]
      have hih := ih b (extractKey key t).2 hext
      simp only [totalSize, List.map_cons, List.sum_cons] at *
      omega

lemma insertEntry_capacity (c : Cache) (key : String) (b : List Nat) :
    (insertEntry c key b).capacity = c.capacity := by
  unfold insertEntry
  split <;> rfl

lemma insertEntry_bounded (c : Cache) (key : String) (b : List Nat)
    (h : totalSize c.entries ≤ c.capacity) :
    totalSize (insertEntry c key b).entries ≤ c.capacity := by
  unfold insertEntry
  split
  · have hfit := evictLRU_fits b.length c.capacity (by assumption) c.entries.reverse
    simp only [totalSize, List.map_cons, List.sum_cons, entrySize]
    rw [List.map_reverse, List.sum_reverse]
    simp only [totalSize] at hfit
    omega
  · exact h

lemma cacheLookup_capacity (c : Cache) (key : String) :
    (cacheLookup c key).2.capacity = c.capacity := by
  unfold cacheLookup
  split <;> rfl

lemma cacheLookup_bounded (c : Cache) (key : String)
    (h : totalSize c.entries ≤ c.capacity) :
    totalSize (cacheLookup c key).2.entries ≤ c.capacity := by
  unfold cacheLookup
  split
  · next b rest heq =>
    have := extractKey_some_size key c.entries b rest heq
    simp only [totalSize, List.map_cons, List.sum_cons] at *
    simp only [entrySize]
    omega
  · exact h

lemma acquire_capacity (env : SysEnv) (c : Cache) (key : String) :
    (acquire env c key).2.capacity = c.capacity := by
  unfold acquire
  split
  · next b c2 heq =>
    have : c2 = (cacheLookup c key).2 := by rw [heq]
    rw [this]
    exact cacheLookup_capacity c key
  · split
    · exact insertEntry_capacity c key _
    · rfl

lemma acquire_bounded (env : SysEnv) (c : Cache) (key : String)
    (h : totalSize c.entries ≤ c.capacity) :
    totalSize (acquire env c key).2.entries ≤ c.capacity := by
  unfold acquire
  split
  · next b c2 heq =>
    have h2 : c2 = (cacheLookup c key).2 := by rw [heq]
    rw [h2]
    exact cacheLookup_bounded c key h
  · split
    · exact insertEntry_bounded c key _ h
    · exact h

lemma runAcquires_invariant (env : SysEnv) :
    ∀ ks (c : Cache), totalSize c.entries ≤ c.capacity →
      totalSize (runAcquires env c ks).entries ≤ (runAcquires env c ks).capacity ∧
        (runAcquires env c ks).capacity = c.capacity := by
  intro ks
  induction ks with
  | nil => intro c h; exact ⟨h, rfl⟩
  | cons k t ih =>
    intro c h
    have hb := acquire_bounded env c k h
    have hc := acquire_capacity env c k
    have := ih (acquire env c k).2 (by rw [← hc] at hb; exact hb)
    unfold runAcquires
    exact ⟨this.1, this.2.trans hc⟩

/-- C1: acquire is total — the synthetic placeholder source always succeeds,
the chain is walked in priority order returning the first success, so every
request yields bytes even when all network sources are unavailable. -/
theorem acquire_never_fails (env : SysEnv) (c : Cache) (key : String) :
    (∃ b c2, acquire env c key = (some b, c2)) ∧
    tryFetch env .synthetic key = some (syntheticBytes key) ∧
    (∀ b, env.primarySource key = some b → cacheLookup c key = (none, c) →
      acquire env c key = (some b, insertEntry c key b)) := by
  refine ⟨?_, rfl, ?_⟩
  · cases hcl : cacheLookup c key with
    | mk o c2 =>
      cases o with
      | some b =>
        exact ⟨b, c2, by unfold acquire; rw [hcl]⟩
      | none =>
        obtain ⟨b, hb⟩ := tryChain_sourceOrder_some env key
        exact ⟨b, insertEntry c key b, by unfold acquire; rw [hcl, hb]⟩
  · intro b hp hmiss
    unfold acquire
    rw [hmiss]
    simp [sourceOrder, tryChain, tryFetch, hp]

/-- Witness for C1 at a concrete environment whose primary source answers,
an empty cache and the key "photo". -/
theorem acquire_never_fails_witness :
    acquire ⟨2024, fun _ => 0, fun _ => some [1, 2], fun _ => none, fun _ => none⟩
        ⟨[], 8⟩ "photo" =
      (some [1, 2],
        insertEntry ⟨[], 8⟩ "photo" [1, 2]) :=
  (acquire_never_fails
      ⟨2024, fun _ => 0, fun _ => some [1, 2], fun _ => none, fun _ => none⟩
      ⟨[], 8⟩ "photo").2.2 [1, 2] rfl rfl

/-- C4: after any sequence of acquire calls the cumulative size of the cache
entries stays within the configured capacity; insertion evicts
least-recently-used entries until the new entry fits, and both the lookup and
the insertion steps preserve the size invariant. -/
theorem cache_size_invariant (env : SysEnv) (c : Cache) (ks : List String)
    (h : totalSize c.entries ≤ c.capacity) :
    totalSize (runAcquires env c ks).entries ≤ (runAcquires env c ks).capacity ∧
    (runAcquires env c ks).capacity = c.capacity ∧
    (∀ key b, totalSize (insertEntry c key b).entries ≤ c.capacity) ∧
    (∀ key, totalSize (cacheLookup c key).2.entries ≤ c.capacity) := by
  obtain ⟨h1, h2⟩ := runAcquires_invariant env ks c h
  exact ⟨h1, h2, fun key b => insertEntry_bounded c key b h,
    fun key => cacheLookup_bounded c key h⟩

/-- Witness for C4 at a concrete cache holding three bytes under capacity
four, with all network sources down and three acquire calls. -/
theorem cache_size_invariant_witness :
    totalSize (⟨[("a", [1, 2, 3])], 4⟩ : Cache).entries ≤ 4 ∧
      (totalSize (runAcquires
          ⟨2024, fun _ => 0, fun _ => none, fun _ => none, fun _ => none⟩
          ⟨[("a", [1, 2, 3])], 4⟩ ["a", "b", "a"]).entries ≤
        (runAcquires
          ⟨2024, fun _ => 0, fun _ => none, fun _ => none, fun _ => none⟩
          ⟨[("a", [1, 2, 3])], 4⟩ ["a", "b", "a"]).capacity) :=
  ⟨by decide,
    (cache_size_invariant
      ⟨2024, fun _ => 0, fun _ => none, fun _ => none, fun _ => none⟩
      ⟨[("a", [1, 2, 3])], 4⟩ ["a", "b", "a"] (by decide)).1⟩

lemma compose_fst (env : SysEnv) (c : Cache) (r : Record) (k : TemplateKind) :
    (compose env c r k).1 = composeValue r k := by
  unfold compose
  split <;> rfl

lemma runUnits_results (env : SysEnv) :
    ∀ (us : List (Record × TemplateKind)) (c : Cache),
      (runUnits env c us).1 = us.map (fun u => composeValue u.1 u.2) := by
  intro us
  induction us with
  | nil => intro c; rfl
  | cons u t ih =>
    intro c
    show (compose env c u.1 u.2).1 ::
        (runUnits env (compose env c u.1 u.2).2 t).1 =
      composeValue u.1 u.2 :: t.map (fun u => composeValue u.1 u.2)
    rw [compose_fst, ih]

lemma unitList_length (records : List Record) (kinds : List TemplateKind) :
    (unitList records kinds).length = records.length * kinds.length := by
  induction records with
  | nil => simp [unitList]
  | cons r t ih =>
    simp only [unitList, List.flatMap_cons, List.length_append,
      List.length_map, List.length_cons] at *
    rw [ih]
    ring

lemma unitList_single (rs : List Record) (k : TemplateKind) :
    unitList rs [k] = rs.map (fun r => (r, k)) := by
  induction rs with
  | nil => rfl
  | cons a t ih =>
    simp only [unitList, List.flatMap_cons, List.map_cons] at *
    rw [ih]
    rfl

lemma length_filter_partition {α : Type} (p : α → Bool) (l : List α) :
    (l.filter p).length + (l.filter (fun x => ! p x)).length = l.length := by
  induction l with
  | nil => rfl
  | cons a t ih =>
    by_cases h : p a
    · simp [List.filter_cons, h]
      omega
    · simp [List.filter_cons, h]
      omega

/-- C2: the verification hash and SecurityPayload are pure functions of the
record's stable fields — two runs under different ambient clock, random and
network state produce identical hashes, both at the hasher and inside
compose's DocumentResult. -/
theorem hash_payload_deterministic (e1 e2 : SysEnv) (c1 c2 : Cache) :
    (∀ hr : HashRecord, verificationHash e1 hr = verificationHash e2 hr) ∧
    (∀ hr : HashRecord, securityPayloadOf e1 hr = securityPayloadOf e2 hr) ∧
    (∀ (r : Record) (k : TemplateKind),
      (compose e1 c1 r k).1.verification_hash =
        (compose e2 c2 r k).1.verification_hash) := by
  refine ⟨fun hr => rfl, fun hr => rfl, fun r k => ?_⟩
  rw [compose_fst, compose_fst]

/-- C3: a batch run produces exactly one DocumentResult per
(record, template_kind) pair — the result list is the pointwise image of the
unit list under a per-unit function, so no unit's outcome influences any
other — and processed_count + failed_count equals records × kinds. -/
theorem batch_report_invariant (env : SysEnv) (c : Cache)
    (records : List Record) (kinds : List TemplateKind) :
    ((run env c records kinds).1.results =
      (unitList records kinds).map (fun u => composeValue u.1 u.2)) ∧
    (run env c records kinds).1.results.length =
      records.length * kinds.length ∧
    (run env c records kinds).1.processed_count +
        (run env c records kinds).1.failed_count =
      records.length * kinds.length := by
  have hres : (run env c records kinds).1.results
      = (runUnits env c (unitList records kinds)).1 := rfl
  have hr := runUnits_results env (unitList records kinds) c
  refine ⟨hres.trans hr, ?_, ?_⟩
  · rw [hres.trans hr, List.length_map, unitList_length]
  · have hp : (run env c records kinds).1.processed_count
        = ((runUnits env c (unitList records kinds)).1.filter
            (fun dr => dr.success)).length := rfl
    have hf : (run env c records kinds).1.failed_count
        = ((runUnits env c (unitList records kinds)).1.filter
            (fun dr => ! dr.success)).length := rfl
    rw [hp, hf, length_filter_partition, hr, List.length_map, unitList_length]

/-- C5: for every record, every template kind and every field the kind
requires that the record lacks, compose fails only that unit: success is
false and the ValidationError detail lists the missing fields, naming the
absent one; a batch containing the bad record still lists every other unit's
result, produced independently of the bad unit. -/
theorem compose_missing_field (env : SysEnv) (c : Cache) (r : Record)
    (k : TemplateKind) (f : FieldName)
    (hreq : f ∈ requiredFields k) (habs : hasField r f = false)
    (others : List Record) :
    f ∈ missingFields r k ∧
    (compose env c r k).1.success = false ∧
    (compose env c r k).1.error =
      some (validationMessage (missingFields r k)) ∧
    fieldLabel f ∈ (missingFields r k).map fieldLabel ∧
    (run env c (r :: others) [k]).1.results =
      composeValue r k ::
        others.map (fun r2 => composeValue r2 k) := by
  have hmem : f ∈ missingFields r k :=
    List.mem_filter.mpr ⟨hreq, by simp [habs]⟩
  have hne : missingFields r k ≠ [] := List.ne_nil_of_mem hmem
  refine ⟨hmem, ?_, ?_, List.mem_map_of_mem fieldLabel hmem, ?_⟩
  · rw [compose_fst]
    unfold composeValue
    rw [if_neg hne]
  · rw [compose_fst]
    unfold composeValue
    rw [if_neg hne]
  · have hres : (run env c (r :: others) [k]).1.results
        = (unitList (r :: others) [k]).map
            (fun u => composeValue u.1 u.2) :=
      runUnits_results env (unitList (r :: others) [k]) c
    rw [hres, unitList_single]
    simp

/-- Witness for C5: a record with no name composed as an id_card, batched
together with the spec 8 scenario record. -/
theorem compose_missing_field_witness :
    FieldName.name ∈ requiredFields .id_card ∧
      hasField ⟨some "X-1", none, some "India", none, none, none, none⟩
          FieldName.name = false ∧
      (compose ⟨2024, fun _ => 0, fun _ => none, fun _ => none, fun _ => none⟩
          ⟨[], 64⟩
          ⟨some "X-1", none, some "India", none, none, none, none⟩
          .id_card).1.success = false ∧
      FieldName.name ∈
        missingFields ⟨some "X-1", none, some "India", none, none, none, none⟩
          .id_card :=
  ⟨by decide, rfl,
    ((compose_missing_field
      ⟨2024, fun _ => 0, fun _ => none, fun _ => none, fun _ => none⟩
      ⟨[], 64⟩
      ⟨some "X-1", none, some "India", none, none, none, none⟩
      .id_card FieldName.name (by decide) rfl [scenarioRecord]).2.1),
    ((compose_missing_field
      ⟨2024, fun _ => 0, fun _ => none, fun _ => none, fun _ => none⟩
      ⟨[], 64⟩
      ⟨some "X-1", none, some "India", none, none, none, none⟩
      .id_card FieldName.name (by decide) rfl [scenarioRecord]).1)⟩

/-- C6: artifact paths are deterministic and have the shape
kind_recordid[_period].ext with png for the card-like kind and pdf for the
document-like kinds; the spec 8 salary-slip scenario record lands at
salary_slip_T-1_2024-03.pdf with success and a non-empty hash, identically
across two runs under different ambient state. -/
theorem artifact_path_spec (e1 e2 : SysEnv) (c1 c2 : Cache) :
    (∀ (k : TemplateKind) (rid p : String),
      artifactPath k rid (some p) =
        kindLabel k ++ "_" ++ rid ++ "_" ++ p ++ "." ++ extOf k) ∧
    (∀ (k : TemplateKind) (rid : String),
      artifactPath k rid none = kindLabel k ++ "_" ++ rid ++ "." ++ extOf k) ∧
    extOf .id_card = "png" ∧
    extOf .salary_slip = "pdf" ∧
    extOf .receipt = "pdf" ∧
    extOf .transcript = "pdf" ∧
    extOf .enrollment_certificate = "pdf" ∧
    (compose e1 c1 scenarioRecord .salary_slip).1.path =
      some "salary_slip_T-1_2024-03.pdf" ∧
    (compose e1 c1 scenarioRecord .salary_slip).1.success = true ∧
    (∃ hsh, (compose e1 c1 scenarioRecord .salary_slip).1.verification_hash =
        some hsh ∧ hsh ≠ "") ∧
    (compose e1 c1 scenarioRecord .salary_slip).1 =
      (compose e2 c2 scenarioRecord .salary_slip).1 := by
  refine ⟨fun k rid p => ?_, fun k rid => ?_, rfl, rfl, rfl, rfl, rfl,
    ?_, ?_, ?_, ?_⟩
  · show kindLabel k ++ "_" ++ rid ++ ("_" ++ p) ++ "." ++ extOf k =
      kindLabel k ++ "_" ++ rid ++ "_" ++ p ++ "." ++ extOf k
    simp [String.append_assoc]
  · show kindLabel k ++ "_" ++ rid ++ "" ++ "." ++ extOf k =
      kindLabel k ++ "_" ++ rid ++ "." ++ extOf k
    simp
  · rw [compose_fst]
    decide
  · rw [compose_fst]
    decide
  · refine ⟨(composeValue scenarioRecord .salary_slip).verification_hash.getD "",
      ?_, by decide⟩
    rw [compose_fst]
    decide
  · rw [compose_fst, compose_fst]

lemma teacherNamesTable_eq_none (c : String) (h : c ∉ supportedNameCountries) :
    Faker.teacherNamesTable c = none := by
  simp only [supportedNameCountries, List.mem_cons, List.not_mem_nil, or_false,
    not_or] at h
  obtain ⟨h1, h2, h3, h4⟩ := h
  simp [Faker.teacherNamesTable, h1, h2, h3, h4]

/-- C7: a record with an unknown declared country never fails — every
country-keyed lookup falls back to the default USA entry and still produces a
result (teacher names and salary bands in faker.js), and composition of a
well-formed record succeeds whatever its country value is. -/
theorem unknown_country_fallback (country : String)
    (hn : country ∉ supportedNameCountries)
    (hs : country ∉ supportedSalaryCountries) :
    Faker.nameTableFor country = Faker.usaNames ∧
    (∀ r1 r2 r3 : ℚ, Faker.teacherName country r1 r2 r3 =
      Faker.teacherName "USA" r1 r2 r3) ∧
    Faker.tableFor country = Faker.usaSalary ∧
    (∀ (lvl : String) (r : ℚ), Faker.generateTeacherSalary country lvl r =
      Faker.generateTeacherSalary "USA" lvl r) ∧
    (∀ (env : SysEnv) (c : Cache) (r : Record) (k : TemplateKind),
      r.country = some country → missingFields r k = [] →
      (compose env c r k).1.success = true) := by
  have hn1 : Faker.nameTableFor country = Faker.usaNames := by
    unfold Faker.nameTableFor
    rw [teacherNamesTable_eq_none country hn]
  have hn2 : Faker.nameTableFor "USA" = Faker.usaNames := rfl
  have ht1 : Faker.tableFor country = Faker.usaSalary := by
    unfold Faker.tableFor
    rw [salaryRangesFor_eq_none country hs]
  have ht2 : Faker.tableFor "USA" = Faker.usaSalary := rfl
  refine ⟨hn1, ?_, ht1, ?_, ?_⟩
  · intro r1 r2 r3
    unfold Faker.teacherName
    rw [hn1, hn2]
  · intro lvl r
    unfold Faker.generateTeacherSalary Faker.rangeFor
    rw [ht1, ht2]
  · intro env c r k hc hm
    rw [compose_fst]
    unfold composeValue
    rw [if_pos hm]

/-- Witness for C7 at the unknown country "Wakanda" and a well-formed
record declaring it. -/
theorem unknown_country_fallback_witness :
    Faker.nameTableFor "Wakanda" = Faker.usaNames ∧
      (compose ⟨2024, fun _ => 0, fun _ => none, fun _ => none, fun _ => none⟩
          ⟨[], 64⟩
          ⟨some "W-1", some "T. Challa", some "Wakanda", none, none, none, none⟩
          .id_card).1.success = true :=
  ⟨(unknown_country_fallback "Wakanda" (by decide) (by decide)).1,
    (unknown_country_fallback "Wakanda" (by decide) (by decide)).2.2.2.2
      ⟨2024, fun _ => 0, fun _ => none, fun _ => none, fun _ => none⟩
      ⟨[], 64⟩
      ⟨some "W-1", some "T. Challa", some "Wakanda", none, none, none, none⟩
      .id_card rfl (by decide)⟩

end CanvaEdu
